import Mathlib

/-
Verification of the filter-query translation and tool-handler layer of an
MCP (Model Context Protocol) HTTP server written in TypeScript.  The server
registers joke tools, a Jira issue-search tool and a ServiceNow incident
tool.  We embed the pure parts of each handler: the zod argument schema,
the query-string builders (JQL for Jira, caret-delimited for ServiceNow),
the limit defaulting, and the mapping from an upstream HTTP response to the
handler's text result or thrown error.
-/

/-- JavaScript `Array.prototype.join(sep)`: empty list gives the empty
string, otherwise the elements interleaved with the separator. -/
def joinSep (sep : String) : List String → String
  | [] => ""
  | [x] => x
  | x :: y :: ys => x ++ sep ++ joinSep sep (y :: ys)

/-- JavaScript truthiness of an optional string (`if (status)`): true iff
the value is present and is not the empty string. -/
def truthy : Option String → Bool
  | none => false
  | some s => !s.isEmpty

/-- Drop leading whitespace characters from a character list. -/
def dropWhileWs : List Char → List Char
  | [] => []
  | c :: cs => if c.isWhitespace then dropWhileWs cs else c :: cs

/-- JavaScript `String.prototype.trim()`: strip leading and trailing
whitespace (space, tab, carriage return, line feed). -/
def jsTrim (s : String) : String :=
  ⟨((dropWhileWs s.data).reverse |> dropWhileWs).reverse⟩

/-- Truthiness of `field?.trim()` (`if (params.x?.trim())`): true iff the
value is present and non-blank after trimming leading/trailing whitespace. -/
def trimTruthy : Option String → Bool
  | none => false
  | some s => !(jsTrim s).isEmpty

/-- One conditional clause of the Jira builder:
`if (field) parts.push(mk(field))` — the untrimmed value is interpolated. -/
def optClause (field : Option String) (mk : String → String) : List String :=
  match field with
  | none => []
  | some s => if s.isEmpty then [] else [mk s]

/-- One conditional clause of the ServiceNow builder:
`if (field?.trim()) parts.push(mk(field.trim()))` — the trimmed value is
interpolated. -/
def optTrimClause (field : Option String) (mk : String → String) : List String :=
  match field with
  | none => []
  | some s => if (jsTrim s).isEmpty then [] else [mk (jsTrim s)]

/-- Arguments of the `get-jira-issues` tool after schema validation:
`project` is a required string, every other field is optional.  `limit` is
a JS number, modelled as an integer. -/
structure JiraArgs where
  project : String
  status : Option String
  summary : Option String
  label : Option String
  assignee : Option String
  issueType : Option String
  limit : Option Int
deriving Repr, DecidableEq

/-- The list `jqlParts` built by `getJiraIssues`: `project=<project>` is
always pushed first, then each optional field guarded by plain truthiness
(no trimming), wrapped in double quotes. -/
def jiraJqlParts (a : JiraArgs) : List String :=
  ["project=" ++ a.project]
    ++ optClause a.status (fun s => "status=\"" ++ s ++ "\"")
    ++ optClause a.summary (fun s => "summary~\"" ++ s ++ "\"")
    ++ optClause a.label (fun s => "labels=\"" ++ s ++ "\"")
    ++ optClause a.assignee (fun s => "assignee=\"" ++ s ++ "\"")
    ++ optClause a.issueType (fun s => "issuetype=\"" ++ s ++ "\"")

/-- `const jql = jqlParts.join(" AND ")`. -/
def jiraJql (a : JiraArgs) : String :=
  joinSep " AND " (jiraJqlParts a)

/-- `const maxResults = limit ?? 5`. -/
def jiraMaxResults (a : JiraArgs) : Int :=
  a.limit.getD 5

/-- Arguments of the `get-servicenow-incidents` tool after schema
validation: every field is optional. -/
structure SnowArgs where
  assigned_to : Option String
  state : Option String
  priority : Option String
  short_description : Option String
  limit : Option Int
deriving Repr, DecidableEq

/-- The list `queryParts` built by `getServiceNowIncidents`: each field is
guarded by `?.trim()` truthiness and interpolated trimmed, without quotes. -/
def snowQueryParts (p : SnowArgs) : List String :=
  optTrimClause p.assigned_to (fun s => "assigned_to=" ++ s)
    ++ optTrimClause p.state (fun s => "state=" ++ s)
    ++ optTrimClause p.priority (fun s => "priority=" ++ s)
    ++ optTrimClause p.short_description (fun s => "short_descriptionLIKE" ++ s)

/-- `const sysparm_query = queryParts.join("^")`. -/
def snowQuery (p : SnowArgs) : String :=
  joinSep "^" (snowQueryParts p)

/-- `const sysparm_limit = params.limit ?? 5`. -/
def snowLimit (p : SnowArgs) : Int :=
  p.limit.getD 5

/-- Raw inbound arguments for the Jira tool before schema validation:
every parameter may be absent. -/
structure JiraRawArgs where
  project : Option String
  status : Option String
  summary : Option String
  label : Option String
  assignee : Option String
  issueType : Option String
  limit : Option Int
deriving Repr, DecidableEq

/-- Schema validation of the Jira tool arguments, from the zod schema
`{ project: z.string(), status: z.string().optional(), ... }`: a missing
`project` is rejected before the handler runs; any present string
(including the empty string) is accepted, and `limit` is accepted
unconditionally. -/
def parseJiraArgs (r : JiraRawArgs) : Except String JiraArgs :=
  match r.project with
  | none => Except.error "ValidationError: project is required"
  | some p =>
      Except.ok ⟨p, r.status, r.summary, r.label, r.assignee, r.issueType, r.limit⟩

/-- Schema validation of the ServiceNow tool arguments: every field of the
zod schema is optional, so every argument set is accepted. -/
def parseSnowArgs (r : SnowArgs) : Except String SnowArgs :=
  Except.ok r

/-- An upstream HTTP response as seen by a handler: the `ok` flag, the raw
body text read by `response.text()` in the error branch, and the parsed
JSON payload used in the success branch. -/
structure UpstreamResponse (α : Type) where
  ok : Bool
  errorBody : String
  json : α
deriving Repr

/-- Parsed shape of one Jira issue as projected by the handler
(`i.key`, `i.fields.summary`, `i.fields.status.name`). -/
structure JiraIssue where
  key : String
  summary : String
  status : String
deriving Repr, DecidableEq

/-- Parsed shape of one ServiceNow incident as projected by the handler
(`i.number`, `i.short_description`). -/
structure SnowIncident where
  number : String
  short_description : String
deriving Repr, DecidableEq

/-- Parsed body of the Chuck Norris joke endpoints (`data.value`). -/
structure ChuckJoke where
  value : String
deriving Repr, DecidableEq

/-- Parsed body of the dad-joke endpoint (`data.joke`). -/
structure DadJoke where
  joke : String
deriving Repr, DecidableEq

/-- Parsed body of the yo-momma endpoint (`data.category`, `data.joke`). -/
structure YoMommaJoke where
  category : String
  joke : String
deriving Repr, DecidableEq

/-- JavaScript `s || d` on strings: the default replaces only the empty
(falsy) string. -/
def orElseStr (s d : String) : String :=
  if s = "" then d else s

/-- One formatted Jira line: `` `#${i.key}: ${i.fields.summary} [${i.fields.status.name}]` ``. -/
def formatJiraIssue (i : JiraIssue) : String :=
  "#" ++ (i.key ++ ": " ++ i.summary ++ " [" ++ i.status ++ "]")

/-- One formatted ServiceNow line: `` `#${i.number}: ${i.short_description}` ``. -/
def formatSnowIncident (i : SnowIncident) : String :=
  "#" ++ (i.number ++ ": " ++ i.short_description)

/-- Response phase of `getJiraIssues`: a non-ok response throws
`` `Jira error: ${await response.text()}` ``; an ok response maps the issue
list to lines, newline-joins them, and substitutes the sentinel for the
empty string. -/
def jiraHandlerResponse (r : UpstreamResponse (List JiraIssue)) : Except String String :=
  if r.ok then
    Except.ok (orElseStr (joinSep "\n" (r.json.map formatJiraIssue)) "No matching issues found.")
  else
    Except.error ("Jira error: " ++ r.errorBody)

/-- Response phase of `getServiceNowIncidents`: a non-ok response throws
`` `ServiceNow error: ${await response.text()}` ``; an ok response maps the
incident list to lines, newline-joins them, and substitutes the sentinel
for the empty string. -/
def snowHandlerResponse (r : UpstreamResponse (List SnowIncident)) : Except String String :=
  if r.ok then
    Except.ok (orElseStr (joinSep "\n" (r.json.map formatSnowIncident)) "No incidents found.")
  else
    Except.error ("ServiceNow error: " ++ r.errorBody)

/-- Response phase of `getChuckJoke`: the handler never inspects
`response.ok`; it returns `data.value` as the text result. -/
def chuckJokeHandler (r : UpstreamResponse ChuckJoke) : Except String String :=
  Except.ok r.json.value

/-- Response phase of `getChuckJokeByCategory`: identical to the plain
Chuck tool — no `response.ok` check, returns `data.value`. -/
def chuckJokeByCategoryHandler (r : UpstreamResponse ChuckJoke) : Except String String :=
  Except.ok r.json.value

/-- Response phase of `getChuckCategories`: no `response.ok` check,
returns `data.join(", ")`. -/
def chuckCategoriesHandler (r : UpstreamResponse (List String)) : Except String String :=
  Except.ok (joinSep ", " r.json)

/-- Response phase of `getDadJoke`: no `response.ok` check, returns
`data.joke`. -/
def dadJokeHandler (r : UpstreamResponse DadJoke) : Except String String :=
  Except.ok r.json.joke

/-- Response phase of `getYoMommaJoke`: a non-ok response throws the fixed
message `Failed to fetch Yo Momma joke` (the body is not included); an ok
response returns `` `Category: ${data.category}\nJoke: ${data.joke}` ``. -/
def yoMommaHandler (r : UpstreamResponse YoMommaJoke) : Except String String :=
  if r.ok then
    Except.ok ("Category: " ++ r.json.category ++ "\n" ++ "Joke: " ++ r.json.joke)
  else
    Except.error "Failed to fetch Yo Momma joke"

/-- Number of occurrences of the pattern in a character list (counted at
every position); for a separator that cannot overlap itself, a string with
n separator occurrences consists of n + 1 separator-delimited clauses. -/
def countOccs (pat : List Char) : List Char → Nat
  | [] => 0
  | c :: cs => (if pat.isPrefixOf (c :: cs) then 1 else 0) + countOccs pat cs

/-- Argument set whose status value contains a double quote followed by
JQL connective syntax, demonstrating verbatim interpolation. -/
def injectionArgs : JiraArgs :=
  ⟨"MCP", some "Done\" AND assignee=\"admin", none, none, none, none, none⟩

/-- The length of a conditional Jira clause equals 1 when the guarding
field is truthy (present and non-empty) and 0 otherwise. -/
theorem optClause_length (f : Option String) (mk : String → String) :
    (optClause f mk).length = (truthy f).toNat := by
  cases f with
  | none => rfl
  | some s =>
      simp only [optClause, truthy]
      cases hs : s.isEmpty <;> simp [hs]

/-- The length of a conditional ServiceNow clause equals 1 when the
guarding field is present and non-blank after trimming and 0 otherwise. -/
theorem optTrimClause_length (f : Option String) (mk : String → String) :
    (optTrimClause f mk).length = (trimTruthy f).toNat := by
  cases f with
  | none => rfl
  | some s =>
      simp only [optTrimClause, trimTruthy]
      cases hs : (jsTrim s).isEmpty <;> simp [hs]

/-- Joining a non-empty list prefixes the head: the join equals the head
followed by some tail string. -/
theorem joinSep_cons_exists (sep x : String) (xs : List String) :
    ∃ t, joinSep sep (x :: xs) = x ++ t := by
  cases xs with
  | nil => exact ⟨"", by simp [joinSep]⟩
  | cons y ys =>
      exact ⟨sep ++ joinSep sep (y :: ys), by simp [joinSep, String.append_assoc]⟩

/-- A string starting with the hash character is never empty. -/
theorem hash_append_ne_empty (s : String) : ("#" ++ s) ≠ "" := by
  intro h
  have h2 : ("#" ++ s).length = (0 : Nat) := by rw [h]; rfl
  rw [String.length_append] at h2
  have h3 : ("#" : String).length = 1 := rfl
  rw [h3] at h2
  omega

/-- The newline-join of formatted Jira lines for a non-empty issue list is
never the empty string (every line starts with a hash). -/
theorem joined_jira_lines_ne_empty (i : JiraIssue) (l : List JiraIssue) :
    joinSep "\n" (List.map formatJiraIssue (i :: l)) ≠ "" := by
  obtain ⟨t, ht⟩ := joinSep_cons_exists "\n" (formatJiraIssue i) (List.map formatJiraIssue l)
  rw [List.map_cons, ht, formatJiraIssue, String.append_assoc]
  exact hash_append_ne_empty _

/-- The newline-join of formatted ServiceNow lines for a non-empty
incident list is never the empty string. -/
theorem joined_snow_lines_ne_empty (i : SnowIncident) (l : List SnowIncident) :
    joinSep "\n" (List.map formatSnowIncident (i :: l)) ≠ "" := by
  obtain ⟨t, ht⟩ := joinSep_cons_exists "\n" (formatSnowIncident i) (List.map formatSnowIncident l)
  rw [List.map_cons, ht, formatSnowIncident, String.append_assoc]
  exact hash_append_ne_empty _

/-- JavaScript `s || d` leaves a non-empty string unchanged. -/
theorem orElseStr_of_ne (s d : String) (h : s ≠ "") : orElseStr s d = s :=
  if_neg h

/-- C1 counterexample: a whitespace-only status passed to the Jira
translator does produce a status clause — the builder checks JavaScript
truthiness without trimming, so the claim's "blank after trimming produces
no clause" fails for Jira. -/
theorem jira_whitespace_status_clause_cex :
    jiraJql ⟨"MCP", some " ", none, none, none, none, none⟩
        = "project=MCP AND status=\" \""
    ∧ jiraJqlParts ⟨"MCP", some " ", none, none, none, none, none⟩
        = ["project=MCP", "status=\" \""] := by
  exact ⟨by decide, by decide⟩

/-- C1 (amended): in the ServiceNow translator each optional field that is
present and non-blank after trimming produces exactly one clause and a
blank or absent field produces none; in the Jira translator presence is
checked by truthiness without trimming, so each present non-empty field —
whitespace-only values included — produces exactly one clause and an
absent or empty-string field produces none.  A whitespace-only value is
truthy but not trim-truthy, and a whitespace-only ServiceNow field still
yields the empty query. -/
theorem clause_counts_amended (a : JiraArgs) (p : SnowArgs) :
    (jiraJqlParts a).length
        = 1 + (truthy a.status).toNat + (truthy a.summary).toNat
          + (truthy a.label).toNat + (truthy a.assignee).toNat
          + (truthy a.issueType).toNat
    ∧ (snowQueryParts p).length
        = (trimTruthy p.assigned_to).toNat + (trimTruthy p.state).toNat
          + (trimTruthy p.priority).toNat + (trimTruthy p.short_description).toNat
    ∧ truthy (some " ") = true
    ∧ trimTruthy (some " ") = false
    ∧ snowQuery ⟨some " ", some " ", some " ", some " ", none⟩ = "" := by
  refine ⟨?_, ?_, by decide, by decide, by decide⟩
  · simp only [jiraJqlParts, List.length_append, List.length_singleton, optClause_length]
  · simp only [snowQueryParts, List.length_append, optTrimClause_length]

/-- C2 counterexample: a zero (or negative) limit is not rejected — schema
validation succeeds and the value flows into maxResults / sysparm_limit
unchanged, so the handler builds a query instead of failing with a
ValidationError. -/
theorem limit_zero_no_validation_cex :
    parseJiraArgs ⟨some "MCP", none, none, none, none, none, some 0⟩
        = Except.ok ⟨"MCP", none, none, none, none, none, some 0⟩
    ∧ jiraMaxResults ⟨"MCP", none, none, none, none, none, some 0⟩ = 0
    ∧ snowLimit ⟨none, none, none, none, some (-1)⟩ = -1 := by
  exact ⟨rfl, rfl, rfl⟩

/-- C2 (amended): an absent limit translates to 5 and limit 3 translates
to 3 for both backends, but a zero or negative limit is never validated:
for any raw Jira argument set whose project is present, schema validation
succeeds whatever the limit is, and the given limit value is passed
through (defaulting to 5 only when absent). -/
theorem limit_translation_amended (r : JiraRawArgs) (p : String)
    (h : r.project = some p) :
    (∃ a, parseJiraArgs r = Except.ok a ∧ jiraMaxResults a = r.limit.getD 5)
    ∧ jiraMaxResults ⟨p, none, none, none, none, none, none⟩ = 5
    ∧ jiraMaxResults ⟨p, none, none, none, none, none, some 3⟩ = 3
    ∧ snowLimit ⟨none, none, none, none, none⟩ = 5
    ∧ snowLimit ⟨none, none, none, none, some 3⟩ = 3 := by
  refine ⟨⟨⟨p, r.status, r.summary, r.label, r.assignee, r.issueType, r.limit⟩, ?_, rfl⟩,
    rfl, rfl, rfl, rfl⟩
  simp [parseJiraArgs, h]

/-- Witness for the amended C2 theorem at a concrete raw argument set. -/
theorem limit_translation_amended_witness :
    (JiraRawArgs.mk (some "MCP") none none none none none (some 0)).project = some "MCP"
    ∧ ((∃ a, parseJiraArgs ⟨some "MCP", none, none, none, none, none, some 0⟩ = Except.ok a
          ∧ jiraMaxResults a
              = (JiraRawArgs.mk (some "MCP") none none none none none (some 0)).limit.getD 5)
        ∧ jiraMaxResults ⟨"MCP", none, none, none, none, none, none⟩ = 5
        ∧ jiraMaxResults ⟨"MCP", none, none, none, none, none, some 3⟩ = 3
        ∧ snowLimit ⟨none, none, none, none, none⟩ = 5
        ∧ snowLimit ⟨none, none, none, none, some 3⟩ = 3) :=
  ⟨rfl, limit_translation_amended ⟨some "MCP", none, none, none, none, none, some 0⟩ "MCP" rfl⟩

/-- C3 counterexample: the priority argument does appear in the built
sysparm_query — priority "1" with all other fields absent yields exactly
the clause priority=1. -/
theorem snow_priority_clause_cex :
    snowQuery ⟨none, none, some "1", none, none⟩ = "priority=1"
    ∧ snowQueryParts ⟨none, none, some "1", none, none⟩ = ["priority=1"] := by
  exact ⟨by decide, by decide⟩

/-- C3 (amended): a priority argument that is present and non-blank after
trimming produces the clause priority=<trimmed value> among the built
query parts (it is not dropped). -/
theorem snow_priority_included_amended (p : SnowArgs) (s : String)
    (hp : p.priority = some s) (hs : (jsTrim s).isEmpty = false) :
    ("priority=" ++ jsTrim s) ∈ snowQueryParts p := by
  simp [snowQueryParts, optTrimClause, hp, hs]

/-- Witness for the amended C3 theorem at priority "1". -/
theorem snow_priority_included_amended_witness :
    (SnowArgs.mk none none (some "1") none none).priority = some "1"
    ∧ (jsTrim "1").isEmpty = false
    ∧ ("priority=" ++ jsTrim "1") ∈ snowQueryParts ⟨none, none, some "1", none, none⟩ :=
  ⟨rfl, by decide, snow_priority_included_amended ⟨none, none, some "1", none, none⟩ "1" rfl (by decide)⟩

/-- C4 counterexample: the plain Chuck Norris tool ignores the HTTP status
entirely — on a non-success response it still produces a text result
instead of failing with an upstream error. -/
theorem chuck_non_ok_returns_text_cex :
    chuckJokeHandler ⟨false, "401 Unauthorized", ⟨"some joke"⟩⟩
      = Except.ok "some joke" := rfl

/-- C4 (amended): on a non-success HTTP status the Jira and ServiceNow
handlers fail with a single error carrying the backend's raw error body
(no retry, no text result); the yo-momma tool fails with a fixed message
that omits the body; the remaining joke tools (chuck, chuck-by-category,
chuck-categories, dad) never inspect the status and return a text result
regardless. -/
theorem upstream_error_behavior_amended (eb : String)
    (issues : List JiraIssue) (incs : List SnowIncident)
    (cj : ChuckJoke) (dj : DadJoke) (ym : YoMommaJoke) (cats : List String) :
    jiraHandlerResponse ⟨false, eb, issues⟩ = Except.error ("Jira error: " ++ eb)
    ∧ snowHandlerResponse ⟨false, eb, incs⟩ = Except.error ("ServiceNow error: " ++ eb)
    ∧ yoMommaHandler ⟨false, eb, ym⟩ = Except.error "Failed to fetch Yo Momma joke"
    ∧ chuckJokeHandler ⟨false, eb, cj⟩ = Except.ok cj.value
    ∧ chuckJokeByCategoryHandler ⟨false, eb, cj⟩ = Except.ok cj.value
    ∧ dadJokeHandler ⟨false, eb, dj⟩ = Except.ok dj.joke
    ∧ chuckCategoriesHandler ⟨false, eb, cats⟩ = Except.ok (joinSep ", " cats) :=
  ⟨rfl, rfl, rfl, rfl, rfl, rfl, rfl⟩

/-- C5 counterexample: an empty-string project passes schema validation
and translation proceeds with an empty scope, yielding the bare clause
`project=` — no ValidationError is raised. -/
theorem empty_project_accepted_cex :
    parseJiraArgs ⟨some "", none, none, none, none, none, none⟩
        = Except.ok ⟨"", none, none, none, none, none, none⟩
    ∧ jiraJql ⟨"", none, none, none, none, none, none⟩ = "project=" := by
  exact ⟨rfl, by decide⟩

/-- C5 (amended): a missing project is rejected with a validation error
before any translation, but an empty-string project is accepted by the
schema and the translator runs with the empty scope, emitting
`project=<scope>` as the first clause. -/
theorem scope_validation_amended (r1 r2 : JiraRawArgs) (p : String)
    (h1 : r1.project = none) (h2 : r2.project = some p) :
    parseJiraArgs r1 = Except.error "ValidationError: project is required"
    ∧ ∃ a, parseJiraArgs r2 = Except.ok a ∧ a.project = p
        ∧ (jiraJqlParts a).head? = some ("project=" ++ p) := by
  refine ⟨by simp [parseJiraArgs, h1],
    ⟨p, r2.status, r2.summary, r2.label, r2.assignee, r2.issueType, r2.limit⟩,
    by simp [parseJiraArgs, h2], rfl, ?_⟩
  simp [jiraJqlParts]

/-- Witness for the amended C5 theorem with a missing and an
empty-string project. -/
theorem scope_validation_amended_witness :
    (JiraRawArgs.mk none none none none none none none).project = none
    ∧ (JiraRawArgs.mk (some "") none none none none none none).project = some ""
    ∧ (parseJiraArgs ⟨none, none, none, none, none, none, none⟩
          = Except.error "ValidationError: project is required"
        ∧ ∃ a, parseJiraArgs ⟨some "", none, none, none, none, none, none⟩ = Except.ok a
            ∧ a.project = "" ∧ (jiraJqlParts a).head? = some ("project=" ++ "")) :=
  ⟨rfl, rfl, scope_validation_amended ⟨none, none, none, none, none, none, none⟩
    ⟨some "", none, none, none, none, none, none⟩ "" rfl rfl⟩

/-- C6: a Filter Model with only the scope (project) set translates to
exactly `project=<scope>` under the Jira dialect, and a ServiceNow
argument set with all optional filters absent translates to the empty
query string. -/
theorem only_scope_queries (scope : String) :
    jiraJql ⟨scope, none, none, none, none, none, none⟩ = "project=" ++ scope
    ∧ snowQuery ⟨none, none, none, none, none⟩ = "" := by
  constructor
  · simp [jiraJql, jiraJqlParts, optClause, joinSep]
  · rfl

/-- C7: the ServiceNow translator on assignee "bob" and textMatch
"disk full" (other filters absent) builds, before URL-encoding, exactly
`assigned_to=bob^short_descriptionLIKEdisk full` — the two clauses in that
order joined by a single caret. -/
theorem snow_scenario_bob_disk_full :
    snowQuery ⟨some "bob", none, none, some "disk full", none⟩
        = "assigned_to=bob^short_descriptionLIKEdisk full"
    ∧ snowQueryParts ⟨some "bob", none, none, some "disk full", none⟩
        = ["assigned_to=bob", "short_descriptionLIKEdisk full"] := by
  exact ⟨by decide, by decide⟩

/-- C8: an empty upstream issue/incident list makes the Jira handler
return the fixed sentinel "No matching issues found." and the ServiceNow
handler return "No incidents found." — both non-empty strings — while a
non-empty list yields one formatted line per element, newline-joined. -/
theorem handler_sentinel_and_lines (eb : String)
    (issues : List JiraIssue) (incs : List SnowIncident)
    (hi : issues ≠ []) (hn : incs ≠ []) :
    jiraHandlerResponse ⟨true, eb, []⟩ = Except.ok "No matching issues found."
    ∧ snowHandlerResponse ⟨true, eb, []⟩ = Except.ok "No incidents found."
    ∧ ("No matching issues found." : String) ≠ ""
    ∧ ("No incidents found." : String) ≠ ""
    ∧ jiraHandlerResponse ⟨true, eb, issues⟩
        = Except.ok (joinSep "\n" (issues.map formatJiraIssue))
    ∧ snowHandlerResponse ⟨true, eb, incs⟩
        = Except.ok (joinSep "\n" (incs.map formatSnowIncident)) := by
  refine ⟨rfl, rfl, by decide, by decide, ?_, ?_⟩
  · cases issues with
    | nil => exact absurd rfl hi
    | cons i l =>
        exact congrArg Except.ok
          (orElseStr_of_ne _ _ (joined_jira_lines_ne_empty i l))
  · cases incs with
    | nil => exact absurd rfl hn
    | cons i l =>
        exact congrArg Except.ok
          (orElseStr_of_ne _ _ (joined_snow_lines_ne_empty i l))

/-- Witness for the C8 theorem at singleton issue and incident lists. -/
theorem handler_sentinel_and_lines_witness :
    ([(⟨"MCP-1", "Fix login", "Done"⟩ : JiraIssue)] ≠ [])
    ∧ ([(⟨"INC0001", "disk full"⟩ : SnowIncident)] ≠ [])
    ∧ (jiraHandlerResponse ⟨true, "", []⟩ = Except.ok "No matching issues found."
        ∧ snowHandlerResponse ⟨true, "", []⟩ = Except.ok "No incidents found."
        ∧ ("No matching issues found." : String) ≠ ""
        ∧ ("No incidents found." : String) ≠ ""
        ∧ jiraHandlerResponse ⟨true, "", [⟨"MCP-1", "Fix login", "Done"⟩]⟩
            = Except.ok (joinSep "\n"
                (([(⟨"MCP-1", "Fix login", "Done"⟩ : JiraIssue)]).map formatJiraIssue))
        ∧ snowHandlerResponse ⟨true, "", [⟨"INC0001", "disk full"⟩]⟩
            = Except.ok (joinSep "\n"
                (([(⟨"INC0001", "disk full"⟩ : SnowIncident)]).map formatSnowIncident))) :=
  ⟨by decide, by decide,
    handler_sentinel_and_lines "" [⟨"MCP-1", "Fix login", "Done"⟩]
      [⟨"INC0001", "disk full"⟩] (by decide) (by decide)⟩

/-- C9 counterexample: on success the yo-momma tool formats its result as
`Category: <category>` and `Joke: <joke>` on two lines, not as the
claimed single-line `<category>: <text>`. -/
theorem yomomma_format_cex :
    yoMommaHandler ⟨true, "", ⟨"dad", "haha"⟩⟩ = Except.ok "Category: dad\nJoke: haha"
    ∧ yoMommaHandler ⟨true, "", ⟨"dad", "haha"⟩⟩ ≠ Except.ok "dad: haha" := by
  refine ⟨rfl, fun h => absurd (Except.ok.inj h) (by decide)⟩

/-- C9 (amended): on a successful upstream response the chuck,
chuck-by-category and dad tools return the joke text verbatim; the
yo-momma tool returns `Category: <category>` and `Joke: <joke>` on two
lines; the categories tool returns the comma-joined category list. -/
theorem joke_tool_results_amended (eb v c j : String) (cats : List String) :
    chuckJokeHandler ⟨true, eb, ⟨v⟩⟩ = Except.ok v
    ∧ chuckJokeByCategoryHandler ⟨true, eb, ⟨v⟩⟩ = Except.ok v
    ∧ dadJokeHandler ⟨true, eb, ⟨j⟩⟩ = Except.ok j
    ∧ yoMommaHandler ⟨true, eb, ⟨c, j⟩⟩
        = Except.ok ("Category: " ++ c ++ "\n" ++ "Joke: " ++ j)
    ∧ chuckCategoriesHandler ⟨true, eb, cats⟩ = Except.ok (joinSep ", " cats) :=
  ⟨rfl, rfl, rfl, rfl, rfl⟩

/-- C10: field values are interpolated into the JQL verbatim, with no
escaping of Jira's metacharacters: the status value
`Done" AND assignee="admin` yields a query containing two occurrences of
the " AND " separator — hence three separator-delimited clauses — although
only two fields (project and status) are set and only two parts were
pushed by the builder. -/
theorem jira_injection_alters_clause_structure :
    jiraJql injectionArgs = "project=MCP AND status=\"Done\" AND assignee=\"admin\""
    ∧ countOccs " AND ".data (jiraJql injectionArgs).data = 2
    ∧ (jiraJqlParts injectionArgs).length = 2 := by
  exact ⟨by decide, by decide, by decide⟩
